import Mathlib

/-!
Shallow embedding of the rush-rotating aggregation script
(src/main.py, src/util/rotator.py, src/util/sheets.py) and verification of
its specification claims.

Modelling conventions:
- MongoDB timestamps (datetime values) are natural numbers; Python's
  datetime.min is 0 and a time-of-day is the value modulo 86400 seconds.
- Decimal/float arithmetic is modelled over Rat; the float value
  float("nan") is a separate constructor of PyFloat since no arithmetic is
  ever performed on it by the script.
- Python runtime exceptions (TypeError, AttributeError) are modelled with
  Except: a raised exception aborts the enclosing computation.
- pymongo cursors are single-pass iterators: consuming one with list(...)
  leaves nothing for a subsequent for-loop.  The Cursor structure makes
  this consumption explicit, because rotator.py line 283 computes
  len(list(attendances)) and then iterates the same cursor on line 284.
-/

/-- Python runtime exceptions raised by the embedded code. -/
inductive PyErr
  | typeError
  | attributeError
deriving DecidableEq, Repr

/-- Value of the nullable Decimal128 field fitRating as it reaches
rotator.py line 204.  The line tests the value against the string
"NoneType", so the relevant cases are: an actual decimal, Python None
(a Mongo null), and the literal string "NoneType". -/
inductive FitRating
  | dec (q : Rat)
  | null
  | strNoneType
deriving DecidableEq, Repr

/-- A document of the attendances collection. -/
structure Attendance where
  attId : String
  contactId : String
  checkInDate : Nat
  checkOutDate : Option Nat
deriving DecidableEq, Repr

/-- A document of the surveys collection. -/
structure Survey where
  surveyId : String
  fitRating : FitRating
  bidStatus : String
  brotherRecs : List String
  interestTags : List String
  createdAt : Nat
deriving DecidableEq, Repr

/-- A document of the contacts collection. -/
structure Contact where
  contactKey : String
  name : String
  surveyInfo : List String
  attendance : List String
deriving DecidableEq, Repr

/-- The three collections of the database used by the script. -/
structure DB where
  attendances : List Attendance
  surveys : List Survey
  contacts : List Contact
deriving DecidableEq, Repr

/-- Bid status constants of rotator.py lines 16-19. -/
def _GREEN : String := "Green"

def _RED : String := "Red"

def _PRO : String := "Pro/Put Up"

def _CON : String := "Con"

/-- datetime.time(): the time-of-day of a timestamp, in seconds. -/
def pyTime (t : Nat) : Nat := t % 86400

/-- A Python float: either float("nan") or an ordinary value. -/
inductive PyFloat
  | nan
  | val (q : Rat)
deriving DecidableEq, Repr

/-- str() applied to a float.  Python renders float("nan") as "nan"; the
claims only depend on that case, ordinary values use the Rat printer as a
stand-in for the decimal printer. -/
def pyFloatStr : PyFloat → String
  | .nan => "nan"
  | .val q => toString q

/-- The num_of_days_since_bid value of rotator.py line 223: either a
Python int (the attendance count) or the Python string "No Pros". -/
inductive DaysSinceBid
  | num (n : Nat)
  | noPros
deriving DecidableEq, Repr

/-- str() applied to a num_of_days_since_bid value. -/
def daysSinceBidStr : DaysSinceBid → String
  | .num n => toString n
  | .noPros => "No Pros"

/-- Python evaluation of the release expression of rotator.py line 36:
num_of_days_since_bid >= 2 or
(num_of_days_since_bid == "No Pros" and days_rushed >= 2).
When num_of_days_since_bid is an int n the first disjunct is n >= 2 and,
when that is False, the second disjunct starts with the comparison
n == "No Pros", which is False for an int, so the whole expression is
n >= 2.  When num_of_days_since_bid is the string "No Pros", Python first
evaluates "No Pros" >= 2, which raises TypeError before the second
disjunct is ever reached. -/
def releaseExpr (dsb : DaysSinceBid) (days_rushed : Nat) : Except PyErr Bool :=
  match dsb, days_rushed with
  | .num n, _ => .ok (decide (2 ≤ n))
  | .noPros, _ => .error .typeError

/-- The merged data_dict of rotator.py lines 144-150: the name key, then
the keys of attendance_info, then the keys of the survey aggregates.
Both attendance_info and the survey aggregates carry a days_rushed key,
and dict.update applies the survey aggregates last. -/
structure DataDict where
  name : String
  check_in_time : Nat
  check_out_time : Option Nat
  mean_fit_rating : PyFloat
  num_reds : Nat
  num_greens : Nat
  num_pro : Nat
  num_con : Nat
  brother_recs : List String
  interests : List String
  num_of_days_since_bid : DaysSinceBid
  days_rushed : Nat
deriving DecidableEq, Repr

/-- The PNMData record of rotator.py lines 21-36. -/
structure PNMData where
  name : String
  check_in_time : Nat
  check_out_time : Option Nat
  avg_fit_rating : PyFloat
  num_reds : Nat
  num_greens : Nat
  num_pro : Nat
  num_con : Nat
  brother_recs : List String
  interests : List String
  num_of_days_since_bid : DaysSinceBid
  days_rushed : Nat
  release : Bool
deriving DecidableEq, Repr

/-- PNMData.__init__ (rotator.py lines 23-36): copies the dict fields and
computes the release flag, whose evaluation can raise TypeError. -/
def mkPNMData (d : DataDict) : Except PyErr PNMData :=
  match releaseExpr d.num_of_days_since_bid d.days_rushed with
  | .error e => .error e
  | .ok r =>
    .ok { name := d.name
          check_in_time := d.check_in_time
          check_out_time := d.check_out_time
          avg_fit_rating := d.mean_fit_rating
          num_reds := d.num_reds
          num_greens := d.num_greens
          num_pro := d.num_pro
          num_con := d.num_con
          brother_recs := d.brother_recs
          interests := d.interests
          num_of_days_since_bid := d.num_of_days_since_bid
          days_rushed := d.days_rushed
          release := r }

/-- Zero-pads a number to two digits, as strftime does for %I and %M. -/
def pad2 (n : Nat) : String := if n < 10 then "0" ++ toString n else toString n

/-- strftime("%I:%M %p") on a time-of-day given in seconds. -/
def fmt12Hour (secs : Nat) : String :=
  let h24 := secs / 3600 % 24
  let m := secs % 3600 / 60
  let h12 := if h24 % 12 = 0 then 12 else h24 % 12
  let ampm := if h24 < 12 then "AM" else "PM"
  pad2 h12 ++ ":" ++ pad2 m ++ " " ++ ampm

/-- PNMData.get_row_list (rotator.py lines 38-60): the row of display
strings, with the check-in and check-out times shifted by the est_offset
of -5 hours (modulo a day, since only the time-of-day is printed). -/
def PNMData.get_row_list (p : PNMData) : List String :=
  let shift := fun (t : Nat) => (t + 86400 - 5 * 3600) % 86400
  [ p.name,
    fmt12Hour (shift p.check_in_time),
    match p.check_out_time with
    | some t => fmt12Hour (shift t)
    | none => "",
    pyFloatStr p.avg_fit_rating,
    toString p.num_reds,
    toString p.num_greens,
    toString p.num_pro,
    toString p.num_con,
    String.intercalate ", " p.brother_recs,
    String.intercalate ", " p.interests,
    daysSinceBidStr p.num_of_days_since_bid,
    toString p.days_rushed,
    if p.release then "True" else "False" ]

/-- A pymongo cursor: the documents not yet consumed. -/
structure Cursor (α : Type) where
  remaining : List α
deriving DecidableEq, Repr

/-- list(cursor): returns all remaining documents and exhausts the
cursor. -/
def Cursor.toListConsume {α : Type} (c : Cursor α) : List α × Cursor α :=
  (c.remaining, ⟨[]⟩)

/-- attendances.find({_id: {$in: ids}}): the attendance documents whose
id is in the given list, as a fresh cursor in collection order. -/
def findAttendancesByIds (db : DB) (ids : List String) : Cursor Attendance :=
  ⟨db.attendances.filter (fun a => ids.contains a.attId)⟩

/-- Rotator._get_most_recent_attendance (rotator.py lines 260-289).
Returns none for the bare None of line 272 (empty attendance list).
Otherwise line 283 consumes the cursor with len(list(attendances)) to get
days_rushed, and the selection loop of lines 284-288 then iterates the
exhausted cursor, so it runs zero times and latest_attendance keeps its
initial value None. -/
def getMostRecentAttendance (db : DB) (contact : Contact) :
    Option (Option Attendance × Nat) :=
  if contact.attendance.isEmpty then none
  else
    let cursor := findAttendancesByIds db contact.attendance
    let consumed := cursor.toListConsume
    let days_rushed := consumed.1.length
    let result := consumed.2.remaining.foldl
      (fun (acc : Option Attendance × Nat) a =>
        if acc.2 < a.checkInDate then (some a, a.checkInDate) else acc)
      (none, 0)
    some (result.1, days_rushed)

/-- The attendance_info dict of rotator.py lines 246-250. -/
structure AttendanceInfo where
  check_in_time : Nat
  check_out_time : Option Nat
  days_rushed : Nat
deriving DecidableEq, Repr

/-- Rotator._get_attendance_info (rotator.py lines 234-258).
Line 251 tuple-unpacks the result of _get_most_recent_attendance: when
that result is the bare None of the empty-attendance case, unpacking
raises TypeError.  Line 252 then subscripts most_recent_attendance with
"checkInDate": when the selection produced None, that raises TypeError
too.  On success the dict is returned paired with include_contact, which
is always True (line 258). -/
def getAttendanceInfo (db : DB) (contact : Contact) :
    Except PyErr (Bool × AttendanceInfo) :=
  match getMostRecentAttendance db contact with
  | none => .error .typeError
  | some (latest, days) =>
    match latest with
    | none => .error .typeError
    | some att =>
      .ok (true,
        { check_in_time := pyTime att.checkInDate
          check_out_time := att.checkOutDate.map pyTime
          days_rushed := days })

/-- set.update on a Python set modelled as a duplicate-free list that
remembers insertion order: each new element is appended once. -/
def pySetUpdate (s : List String) (xs : List String) : List String :=
  xs.foldl (fun acc x => if acc.contains x then acc else acc ++ [x]) s

/-- surveys.find({_id: {$in: ids}}): the survey documents whose id is in
the given list, in collection order. -/
def findSurveys (db : DB) (ids : List String) : List Survey :=
  db.surveys.filter (fun s => ids.contains s.surveyId)

/-- contacts.find({_id: {$in: ids}}): the contact documents whose id is
in the given list, in collection order. -/
def findContacts (db : DB) (ids : List String) : List Contact :=
  db.contacts.filter (fun c => ids.contains c.contactKey)

/-- The local state of the survey loop of rotator.py lines 191-221: the
four bid counters of the aggregates dict together with the locals
num_surveys, fit_rating_sum, most_recent_pro, brother_recs and
interests. -/
structure SurveyLoopState where
  num_reds : Nat
  num_greens : Nat
  num_pro : Nat
  num_con : Nat
  num_surveys : Nat
  fit_rating_sum : Rat
  most_recent_pro : Nat
  brother_recs : List String
  interests : List String
deriving DecidableEq, Repr

/-- The initial loop state: counters 0, empty sets, fit_rating_sum 0 and
most_recent_pro = datetime.min. -/
def initLoopState : SurveyLoopState :=
  { num_reds := 0, num_greens := 0, num_pro := 0, num_con := 0
    num_surveys := 0, fit_rating_sum := 0, most_recent_pro := 0
    brother_recs := [], interests := [] }

/-- The fit-rating term of rotator.py line 204:
float(survey["fitRating"].to_decimal()) if survey["fitRating"] != "NoneType" else 0.
A decimal value is not equal to the string "NoneType", so it is converted
and added.  Python None is also not equal to the string "NoneType", so
the code calls None.to_decimal(), which raises AttributeError.  Only the
literal string "NoneType" takes the else branch contributing 0. -/
def fitContribution : FitRating → Except PyErr Rat
  | .dec q => .ok q
  | .null => .error .attributeError
  | .strNoneType => .ok 0

/-- One iteration of the survey loop (rotator.py lines 203-221) after the
fit-rating term has been evaluated to contrib: the elif chain on
bidStatus, the most_recent_pro update, the set updates and the
num_surveys increment. -/
def surveyStepOk (st : SurveyLoopState) (s : Survey) (contrib : Rat) :
    SurveyLoopState :=
  let st1 := { st with fit_rating_sum := st.fit_rating_sum + contrib }
  let st2 :=
    if s.bidStatus = _GREEN then { st1 with num_greens := st1.num_greens + 1 }
    else if s.bidStatus = _RED then { st1 with num_reds := st1.num_reds + 1 }
    else if s.bidStatus = _PRO then
      { st1 with num_pro := st1.num_pro + 1
                 most_recent_pro :=
                   if st1.most_recent_pro < s.createdAt then s.createdAt
                   else st1.most_recent_pro }
    else if s.bidStatus = _CON then { st1 with num_con := st1.num_con + 1 }
    else st1
  { st2 with
    brother_recs := pySetUpdate st2.brother_recs (s.brotherRecs.map String.toLower)
    interests := pySetUpdate st2.interests (s.interestTags.map String.toLower)
    num_surveys := st2.num_surveys + 1 }

/-- One iteration of the survey loop including the fit-rating term, which
can raise AttributeError and abort the loop. -/
def surveyStep (st : SurveyLoopState) (s : Survey) :
    Except PyErr SurveyLoopState :=
  match fitContribution s.fitRating with
  | .error e => .error e
  | .ok q => .ok (surveyStepOk st s q)

/-- The survey loop of rotator.py lines 203-221 over the fetched
surveys. -/
def surveyLoop (st : SurveyLoopState) : List Survey → Except PyErr SurveyLoopState
  | [] => .ok st
  | s :: ss =>
    match surveyStep st s with
    | .error e => .error e
    | .ok st1 => surveyLoop st1 ss

/-- Rotator._get_num_of_attendances_from_date (rotator.py lines 291-299):
count the attendance documents with the given contactId whose checkInDate
is strictly greater than start. -/
def getNumOfAttendancesFromDate (db : DB) (start : Nat) (contact_id : String) :
    Nat :=
  (db.attendances.filter (fun a => a.contactId == contact_id)).foldl
    (fun count a => if start < a.checkInDate then count + 1 else count) 0

/-- The aggregates dict returned by _aggregate_survey_results
(rotator.py lines 179-232). -/
structure Aggregates where
  mean_fit_rating : PyFloat
  num_reds : Nat
  num_greens : Nat
  num_pro : Nat
  num_con : Nat
  num_of_days_since_bid : DaysSinceBid
  days_rushed : Nat
  brother_recs : List String
  interests : List String
deriving DecidableEq, Repr

/-- The assembly of the aggregates dict after the survey loop
(rotator.py lines 223-232).  The days_rushed key keeps the initial value
0 of line 186: the loop never touches it. -/
def assembleAggregates (db : DB) (c : Contact) (st : SurveyLoopState) :
    Aggregates :=
  { mean_fit_rating :=
      if 0 < st.num_surveys then .val (st.fit_rating_sum / (st.num_surveys : Rat))
      else .nan
    num_reds := st.num_reds
    num_greens := st.num_greens
    num_pro := st.num_pro
    num_con := st.num_con
    num_of_days_since_bid :=
      if 0 < st.num_pro then
        .num (getNumOfAttendancesFromDate db st.most_recent_pro c.contactKey)
      else .noPros
    days_rushed := 0
    brother_recs := st.brother_recs
    interests := st.interests }

/-- Rotator._aggregate_survey_results (rotator.py lines 167-232): run the
survey loop over the fetched surveys and assemble the aggregates dict. -/
def aggregateSurveyResults (db : DB) (c : Contact) : Except PyErr Aggregates :=
  match surveyLoop initLoopState (findSurveys db c.surveyInfo) with
  | .error e => .error e
  | .ok st => .ok (assembleAggregates db c st)

/-- The data_dict assembly of rotator.py lines 144-150: the name key,
updated with attendance_info, updated with the survey aggregates.  The
aggregates dict also carries days_rushed (still 0), which overwrites the
attendance-derived value because its update is applied last. -/
def buildDataDict (nm : String) (ainfo : AttendanceInfo) (agg : Aggregates) :
    DataDict :=
  { name := nm
    check_in_time := ainfo.check_in_time
    check_out_time := ainfo.check_out_time
    mean_fit_rating := agg.mean_fit_rating
    num_reds := agg.num_reds
    num_greens := agg.num_greens
    num_pro := agg.num_pro
    num_con := agg.num_con
    brother_recs := agg.brother_recs
    interests := agg.interests
    num_of_days_since_bid := agg.num_of_days_since_bid
    days_rushed := agg.days_rushed }

/-- The body of the contact loop of rotator.py lines 143-152 for one
contact: attendance info, the exclusion test (include_contact is in fact
always True), survey aggregation and PNMData construction.  none means
the contact was skipped by the continue of line 148. -/
def buildPnm (db : DB) (c : Contact) : Except PyErr (Option PNMData) :=
  match getAttendanceInfo db c with
  | .error e => .error e
  | .ok (include_contact, ainfo) =>
    if include_contact = false then .ok none
    else
      match aggregateSurveyResults db c with
      | .error e => .error e
      | .ok agg =>
        match mkPNMData (buildDataDict c.name ainfo agg) with
        | .error e => .error e
        | .ok pnm => .ok (some pnm)

/-- The contact loop of rotator.py lines 143-152, accumulating the
pnm_data list in order. -/
def pnmLoop (db : DB) : List Contact → List PNMData → Except PyErr (List PNMData)
  | [], acc => .ok acc
  | c :: cs, acc =>
    match buildPnm db c with
    | .error e => .error e
    | .ok none => pnmLoop db cs acc
    | .ok (some p) => pnmLoop db cs (acc ++ [p])

/-- The sort key relation of rotator.py line 157: ordered by
check_in_time. -/
def pnmKeyLE (a b : PNMData) : Prop := a.check_in_time ≤ b.check_in_time

instance : DecidableRel pnmKeyLE := fun a b => Nat.decLe a.check_in_time b.check_in_time

instance : IsTotal PNMData pnmKeyLE := ⟨fun a b => Nat.le_total a.check_in_time b.check_in_time⟩

instance : IsTrans PNMData pnmKeyLE := ⟨fun _ _ _ => Nat.le_trans⟩

/-- pnm_data.sort(key=lambda pnm: pnm.check_in_time) of rotator.py
line 157: a stable sort by check-in time, modelled as stable insertion
sort. -/
def sortPnms (l : List PNMData) : List PNMData := l.insertionSort pnmKeyLE

/-- Rotator._aggregate_pnm_data (rotator.py lines 132-159): build the
PNMData list over the matched contacts and sort it by check-in time. -/
def aggregatePnmData (db : DB) (contactIds : List String) :
    Except PyErr (List PNMData) :=
  match pnmLoop db (findContacts db contactIds) [] with
  | .error e => .error e
  | .ok pnms => .ok (sortPnms pnms)

/-- Rotator._create_pnm_rows (rotator.py lines 161-165). -/
def createPnmRows (pnms : List PNMData) : List (List String) :=
  pnms.map PNMData.get_row_list

/-- Rotator._get_contact_ids_by_todays_attendance (rotator.py lines
102-129): the distinct contactIds of attendance documents with
checkInDate in [startUtc, endUtc).  The day bounds depend on the clock
and the hard-coded UTC offset, so they are parameters here. -/
def getContactIdsByTodaysAttendance (db : DB) (startUtc endUtc : Nat) :
    List String :=
  ((db.attendances.filter
      (fun a => startUtc ≤ a.checkInDate && a.checkInDate < endUtc)).map
    (fun a => a.contactId)).dedup

/-- Modelled from the spec: the sheet sink operations of section 4.4.
SheetEditor.verify_or_create_data_sheet and clear_data_sheet exist in
src/util/sheets.py, but the write_header and write_data_rows members
called by Rotator.execute are missing from src/; they are modelled from
the spec's sink contract as the header and row-writing events. -/
inductive SheetOp
  | ensure
  | clear
  | header
  | writeRows (rows : List (List String))
deriving DecidableEq, Repr

/-- Rotator.execute (rotator.py lines 84-100): aggregate, build rows,
then call the sheet sink.  The sink calls are modelled as the sequence of
emitted SheetOp events of a run that reaches them; an exception during
aggregation aborts the run before any sink call. -/
def execute (db : DB) (startUtc endUtc : Nat) : Except PyErr (List SheetOp) :=
  match aggregatePnmData db (getContactIdsByTodaysAttendance db startUtc endUtc) with
  | .error e => .error e
  | .ok pnms =>
    .ok [SheetOp.ensure, SheetOp.clear, SheetOp.header,
         SheetOp.writeRows (createPnmRows pnms)]

/-- The bid status test of rotator.py line 205. -/
def isGreen (s : Survey) : Bool := s.bidStatus == _GREEN

/-- The bid status test of rotator.py line 207. -/
def isRed (s : Survey) : Bool := s.bidStatus == _RED

/-- The bid status test of rotator.py line 209. -/
def isPro (s : Survey) : Bool := s.bidStatus == _PRO

/-- The bid status test of rotator.py line 213. -/
def isCon (s : Survey) : Bool := s.bidStatus == _CON

/-- Follows the spec's words: the createdAt of the most recent "Pro"
survey among the given surveys (0, the model of datetime.min, when there
is none). -/
def spec_most_recent_pro_createdAt (ss : List Survey) : Nat :=
  ((ss.filter isPro).map (fun s => s.createdAt)).foldl max 0

/-- Follows the spec's words (claim C5): the number of the contact's
attendance records whose checkInDate is strictly after the createdAt of
the contact's most recent Pro survey. -/
def spec_num_days_since_bid (db : DB) (c : Contact) : Nat :=
  ((db.attendances.filter (fun a => a.contactId == c.contactKey)).filter
    (fun a => spec_most_recent_pro_createdAt (findSurveys db c.surveyInfo)
      < a.checkInDate)).length

/-- Follows the spec's words (claim C10): the accumulated fit-rating sum,
where a survey whose rating is skipped contributes 0. -/
def spec_fit_sum (ss : List Survey) : Rat :=
  (ss.map (fun s =>
    match s.fitRating with
    | .dec q => q
    | _ => (0 : Rat))).sum

/-- The empty database, the only input on which a full run of the script
terminates without an exception. -/
def dbEmpty : DB := { attendances := [], surveys := [], contacts := [] }

/-- C1 failing input: the data_dict of a contact with zero Pro surveys
(num_of_days_since_bid is the sentinel "No Pros") and days_rushed 1. -/
def ddNoPros : DataDict :=
  { name := "Cam", check_in_time := 3600, check_out_time := none
    mean_fit_rating := .nan, num_reds := 0, num_greens := 0, num_pro := 0
    num_con := 0, brother_recs := [], interests := []
    num_of_days_since_bid := .noPros, days_rushed := 1 }

/-- C2 failing input: one attendance record referenced by the contact. -/
def attC2 : Attendance :=
  { attId := "a1", contactId := "c2", checkInDate := 7200, checkOutDate := none }

/-- C2 failing input: a contact with exactly one attendance reference. -/
def contactC2 : Contact :=
  { contactKey := "c2", name := "Dee", surveyInfo := [], attendance := ["a1"] }

/-- C2 failing input: the database holding attC2 and contactC2. -/
def dbC2 : DB := { attendances := [attC2], surveys := [], contacts := [contactC2] }

/-- C4 failing input: a contact whose attendance reference list is
empty. -/
def contactC4 : Contact :=
  { contactKey := "c4", name := "Em", surveyInfo := [], attendance := [] }

/-- C4 failing input: the database holding contactC4. -/
def dbC4 : DB := { attendances := [], surveys := [], contacts := [contactC4] }

/-- C6 failing input: a survey whose fitRating is null (Python None). -/
def surveyC6 : Survey :=
  { surveyId := "s6", fitRating := .null, bidStatus := "Green"
    brotherRecs := [], interestTags := [], createdAt := 50 }

/-- C6 failing input: a contact referencing surveyC6. -/
def contactC6 : Contact :=
  { contactKey := "c6", name := "Fi", surveyInfo := ["s6"], attendance := [] }

/-- C6 failing input: the database holding surveyC6 and contactC6. -/
def dbC6 : DB := { attendances := [], surveys := [surveyC6], contacts := [contactC6] }

/-- C7 failing input: a contact with zero surveys. -/
def contactC7 : Contact :=
  { contactKey := "c7", name := "Gil", surveyInfo := [], attendance := [] }

/-- C7 failing input: the database holding contactC7. -/
def dbC7 : DB := { attendances := [], surveys := [], contacts := [contactC7] }

/-- The survey aggregates of a contact with zero surveys. -/
def aggC7 : Aggregates :=
  { mean_fit_rating := .nan, num_reds := 0, num_greens := 0, num_pro := 0
    num_con := 0, num_of_days_since_bid := .noPros, days_rushed := 0
    brother_recs := [], interests := [] }

/-- An attendance_info dict for the C7 scenario. -/
def ainfoC7 : AttendanceInfo :=
  { check_in_time := 3600, check_out_time := none, days_rushed := 1 }

/-- A PNMData value with a NaN mean rating, as the intended zero-surveys
summary would look; the constructor itself can never produce it because
release evaluation raises first. -/
def pnmC7 : PNMData :=
  { name := "Gil", check_in_time := 3600, check_out_time := none
    avg_fit_rating := .nan, num_reds := 0, num_greens := 0, num_pro := 0
    num_con := 0, brother_recs := [], interests := []
    num_of_days_since_bid := .noPros, days_rushed := 0, release := false }

/-- C5 witness input: a Pro survey created at T0 = 100. -/
def surveyW5 : Survey :=
  { surveyId := "s5", fitRating := .dec 2, bidStatus := "Pro/Put Up"
    brotherRecs := [], interestTags := [], createdAt := 100 }

/-- C5 witness input: the contact referencing surveyW5. -/
def contactW5 : Contact :=
  { contactKey := "c5", name := "Ann", surveyInfo := ["s5"], attendance := [] }

/-- C5 witness input: check-in one day after T0. -/
def attW5a : Attendance :=
  { attId := "a51", contactId := "c5", checkInDate := 100 + 86400
    checkOutDate := none }

/-- C5 witness input: check-in three days after T0. -/
def attW5b : Attendance :=
  { attId := "a52", contactId := "c5", checkInDate := 100 + 3 * 86400
    checkOutDate := none }

/-- C5 witness input: the database of the spec's worked example. -/
def dbW5 : DB :=
  { attendances := [attW5a, attW5b], surveys := [surveyW5], contacts := [contactW5] }

/-- The survey aggregates the code computes on the C5 witness input.
The mean is written as the unreduced sum-over-count expression the loop
builds (its value is 2). -/
def aggW5 : Aggregates :=
  { mean_fit_rating := .val (((0 : Rat) + 2) / ((1 : Nat) : Rat))
    num_reds := 0, num_greens := 0, num_pro := 1
    num_con := 0, num_of_days_since_bid := .num 2, days_rushed := 0
    brother_recs := [], interests := [] }

/-- C9/C10 witness input: a single Green survey with rating 3. -/
def surveyW9 : Survey :=
  { surveyId := "s9", fitRating := .dec 3, bidStatus := "Green"
    brotherRecs := [], interestTags := [], createdAt := 10 }

/-- C9/C10 witness input: the contact referencing surveyW9. -/
def contactW9 : Contact :=
  { contactKey := "c9", name := "Bo", surveyInfo := ["s9"], attendance := [] }

/-- C9/C10 witness input: the database holding surveyW9 and contactW9. -/
def dbW9 : DB := { attendances := [], surveys := [surveyW9], contacts := [contactW9] }

/-- The survey aggregates the code computes on the C9/C10 witness
input.  The mean is written as the unreduced sum-over-count expression
the loop builds (its value is 3). -/
def aggW9 : Aggregates :=
  { mean_fit_rating := .val (((0 : Rat) + 3) / ((1 : Nat) : Rat))
    num_reds := 0, num_greens := 1, num_pro := 0
    num_con := 0, num_of_days_since_bid := .noPros, days_rushed := 0
    brother_recs := [], interests := [] }

lemma foldl_max_eq (l : List Nat) : ∀ a : Nat, l.foldl max a = max a (l.foldl max 0) := by
  induction l with
  | nil => intro a; simp
  | cons b l ih =>
    intro a
    simp only [List.foldl_cons]
    rw [ih (max a b), ih (max 0 b)]
    omega

lemma count_fold_eq (start : Nat) :
    ∀ (l : List Attendance) (n : Nat),
      l.foldl (fun count a => if start < a.checkInDate then count + 1 else count) n =
        n + (l.filter (fun a => start < a.checkInDate)).length := by
  intro l
  induction l with
  | nil => intro n; simp
  | cons a l ih =>
    intro n
    by_cases h : start < a.checkInDate <;> simp [List.filter_cons, h, ih] <;> omega

lemma surveyStepOk_fields (st : SurveyLoopState) (s : Survey) (q : Rat) :
    (surveyStepOk st s q).num_surveys = st.num_surveys + 1 ∧
    (surveyStepOk st s q).num_greens = st.num_greens + (if isGreen s then 1 else 0) ∧
    (surveyStepOk st s q).num_reds = st.num_reds + (if isRed s then 1 else 0) ∧
    (surveyStepOk st s q).num_pro = st.num_pro + (if isPro s then 1 else 0) ∧
    (surveyStepOk st s q).num_con = st.num_con + (if isCon s then 1 else 0) ∧
    (surveyStepOk st s q).fit_rating_sum = st.fit_rating_sum + q ∧
    (surveyStepOk st s q).most_recent_pro =
      (if isPro s then max st.most_recent_pro s.createdAt else st.most_recent_pro) := by
  simp only [surveyStepOk, isGreen, isRed, isPro, isCon, _GREEN, _RED, _PRO, _CON,
    beq_iff_eq]
  by_cases hg : s.bidStatus = "Green"
  · simp [hg]
  · by_cases hr : s.bidStatus = "Red"
    · simp [hg, hr]
    · by_cases hp : s.bidStatus = "Pro/Put Up"
      · simp [hg, hr, hp]
        split <;> omega
      · by_cases hc : s.bidStatus = "Con"
        · simp [hg, hr, hp, hc]
        · simp [hg, hr, hp, hc]

lemma surveyLoop_ok_fields :
    ∀ (ss : List Survey) (st st2 : SurveyLoopState),
      surveyLoop st ss = .ok st2 →
      st2.num_surveys = st.num_surveys + ss.length ∧
      st2.num_greens = st.num_greens + (ss.filter isGreen).length ∧
      st2.num_reds = st.num_reds + (ss.filter isRed).length ∧
      st2.num_pro = st.num_pro + (ss.filter isPro).length ∧
      st2.num_con = st.num_con + (ss.filter isCon).length ∧
      st2.fit_rating_sum = st.fit_rating_sum + spec_fit_sum ss ∧
      st2.most_recent_pro = max st.most_recent_pro (spec_most_recent_pro_createdAt ss) := by
  intro ss
  induction ss with
  | nil =>
    intro st st2 h
    simp only [surveyLoop] at h
    injection h with h
    subst h
    simp [spec_fit_sum, spec_most_recent_pro_createdAt]
  | cons s ss ih =>
    intro st st2 h
    have hq : ∀ q : Rat, fitContribution s.fitRating = .ok q →
        surveyLoop (surveyStepOk st s q) ss = .ok st2 →
        st2.num_surveys = st.num_surveys + (s :: ss).length ∧
        st2.num_greens = st.num_greens + ((s :: ss).filter isGreen).length ∧
        st2.num_reds = st.num_reds + ((s :: ss).filter isRed).length ∧
        st2.num_pro = st.num_pro + ((s :: ss).filter isPro).length ∧
        st2.num_con = st.num_con + ((s :: ss).filter isCon).length ∧
        st2.fit_rating_sum = st.fit_rating_sum + spec_fit_sum (s :: ss) ∧
        st2.most_recent_pro =
          max st.most_recent_pro (spec_most_recent_pro_createdAt (s :: ss)) := by
      intro q hcontrib htail
      obtain ⟨i1, i2, i3, i4, i5, i6, i7⟩ := ih (surveyStepOk st s q) st2 htail
      obtain ⟨g1, g2, g3, g4, g5, g6, g7⟩ := surveyStepOk_fields st s q
      refine ⟨?_, ?_, ?_, ?_, ?_, ?_, ?_⟩
      · rw [i1, g1, List.length_cons]; omega
      · rw [i2, g2, List.filter_cons]
        cases hgs : isGreen s <;> simp [hgs] <;> omega
      · rw [i3, g3, List.filter_cons]
        cases hrs : isRed s <;> simp [hrs] <;> omega
      · rw [i4, g4, List.filter_cons]
        cases hps : isPro s <;> simp [hps] <;> omega
      · rw [i5, g5, List.filter_cons]
        cases hcs : isCon s <;> simp [hcs] <;> omega
      · rw [i6, g6]
        have hv : spec_fit_sum (s :: ss) =
            (match s.fitRating with | .dec q2 => q2 | _ => (0 : Rat)) + spec_fit_sum ss := by
          simp [spec_fit_sum]
        rw [hv]
        cases hfr : s.fitRating with
        | dec q2 =>
          rw [hfr] at hcontrib
          injection hcontrib with hqq
          subst hqq
          ring
        | null => rw [hfr] at hcontrib; cases hcontrib
        | strNoneType =>
          rw [hfr] at hcontrib
          injection hcontrib with hqq
          subst hqq
          ring
      · have hmax : ∀ (c : Nat) (L : List Nat),
            List.foldl max (max 0 c) L = max c (List.foldl max 0 L) := by
          intro c L
          rw [foldl_max_eq]
          omega
        rw [i7, g7]
        by_cases hps : isPro s = true
        · have hfil : List.filter isPro (s :: ss) = s :: List.filter isPro ss := by
            rw [List.filter_cons, if_pos hps]
          rw [if_pos hps]
          unfold spec_most_recent_pro_createdAt
          rw [hfil, List.map_cons, List.foldl_cons, hmax]
          omega
        · have hfil : List.filter isPro (s :: ss) = List.filter isPro ss := by
            rw [List.filter_cons, if_neg hps]
          rw [if_neg hps]
          unfold spec_most_recent_pro_createdAt
          rw [hfil]
    simp only [surveyLoop, surveyStep] at h
    cases hfr : fitContribution s.fitRating with
    | error e => rw [hfr] at h; cases h
    | ok q => rw [hfr] at h; exact hq q hfr h

lemma four_filter_lengths (ss : List Survey) :
    (ss.filter isGreen).length + (ss.filter isRed).length +
      (ss.filter isPro).length + (ss.filter isCon).length ≤ ss.length ∧
    ((∀ s ∈ ss, s.bidStatus = _GREEN ∨ s.bidStatus = _RED ∨
        s.bidStatus = _PRO ∨ s.bidStatus = _CON) →
      (ss.filter isGreen).length + (ss.filter isRed).length +
        (ss.filter isPro).length + (ss.filter isCon).length = ss.length) := by
  induction ss with
  | nil => simp
  | cons s ss ih =>
    obtain ⟨ih1, ih2⟩ := ih
    have hflen : ∀ p : Survey → Bool,
        ((s :: ss).filter p).length = (if p s then 1 else 0) + (ss.filter p).length := by
      intro p
      by_cases h : p s <;> simp [List.filter_cons, h] <;> omega
    have hone : (if isGreen s then 1 else 0) + (if isRed s then 1 else 0) +
        (if isPro s then 1 else 0) + (if isCon s then 1 else 0) ≤ 1 := by
      simp only [isGreen, isRed, isPro, isCon, _GREEN, _RED, _PRO, _CON, beq_iff_eq]
      by_cases hg : s.bidStatus = "Green" <;> by_cases hr : s.bidStatus = "Red" <;>
        by_cases hp : s.bidStatus = "Pro/Put Up" <;> by_cases hc : s.bidStatus = "Con" <;>
        simp_all
    constructor
    · rw [hflen isGreen, hflen isRed, hflen isPro, hflen isCon, List.length_cons]
      omega
    · intro hall
      have he := hall s (List.mem_cons_self s ss)
      have hexact : (if isGreen s then 1 else 0) + (if isRed s then 1 else 0) +
          (if isPro s then 1 else 0) + (if isCon s then 1 else 0) = 1 := by
        simp only [isGreen, isRed, isPro, isCon, _GREEN, _RED, _PRO, _CON, beq_iff_eq] at he ⊢
        rcases he with h | h | h | h <;> simp [h]
      have htail := ih2 (fun s2 hs2 => hall s2 (List.mem_cons_of_mem s hs2))
      rw [hflen isGreen, hflen isRed, hflen isPro, hflen isCon, List.length_cons]
      omega

lemma aggregateSurveyResults_ok (db : DB) (c : Contact) (agg : Aggregates)
    (h : aggregateSurveyResults db c = .ok agg) :
    ∃ st, surveyLoop initLoopState (findSurveys db c.surveyInfo) = .ok st ∧
      agg = assembleAggregates db c st := by
  unfold aggregateSurveyResults at h
  cases hl : surveyLoop initLoopState (findSurveys db c.surveyInfo) with
  | error e => rw [hl] at h; cases h
  | ok st =>
    rw [hl] at h
    injection h with h
    exact ⟨st, rfl, h.symm⟩

/-- C1: the claim says constructing the summary for a contact with zero
Pro surveys (num_of_days_since_bid = "No Pros") and days_rushed = 1
succeeds with release = false.  In the code, evaluating the release
expression on the sentinel raises TypeError ("No Pros" >= 2), so the
construction fails; on an int value n the expression does evaluate to
n >= 2, matching the claim's first disjunct. -/
theorem release_construction_fails_on_no_pros :
    mkPNMData ddNoPros = .error PyErr.typeError ∧
    releaseExpr DaysSinceBid.noPros 1 = .error PyErr.typeError ∧
    releaseExpr (DaysSinceBid.num 2) 1 = .ok true ∧
    releaseExpr (DaysSinceBid.num 1) 5 = .ok false :=
  ⟨rfl, rfl, rfl, rfl⟩

/-- C2: the claim says the record with the maximum checkInDate is
selected as most recent.  In the code, len(list(attendances)) exhausts
the pymongo cursor, so the selection loop iterates zero times:
latest_attendance stays None (while days_rushed = 1 is counted), and
_get_attendance_info then raises TypeError subscripting None. -/
theorem most_recent_attendance_lost_to_cursor_exhaustion :
    getMostRecentAttendance dbC2 contactC2 = some (none, 1) ∧
    getAttendanceInfo dbC2 contactC2 = .error PyErr.typeError :=
  ⟨rfl, rfl⟩

/-- C3: every run that completes aggregation invokes the sheet sink
operations in exactly the sequence ensure, clear, header, rows. -/
theorem execute_calls_sink_in_sequence (db : DB) (startUtc endUtc : Nat)
    (pnms : List PNMData)
    (h : aggregatePnmData db (getContactIdsByTodaysAttendance db startUtc endUtc) =
      .ok pnms) :
    execute db startUtc endUtc =
      .ok [SheetOp.ensure, SheetOp.clear, SheetOp.header,
           SheetOp.writeRows (createPnmRows pnms)] := by
  unfold execute
  rw [h]

/-- C3 witness: on the empty database the run completes and emits
exactly the sequence ensure, clear, header, rows. -/
theorem execute_calls_sink_in_sequence_witness :
    execute dbEmpty 0 0 =
      .ok [SheetOp.ensure, SheetOp.clear, SheetOp.header,
           SheetOp.writeRows (createPnmRows [])] :=
  execute_calls_sink_in_sequence dbEmpty 0 0 [] rfl

/-- C4: the claim says a contact with an empty attendance list is
excluded from the output without an error.  In the code,
_get_most_recent_attendance returns a bare None for that contact, the
tuple unpacking in _get_attendance_info raises TypeError, and the whole
aggregation pass aborts instead of continuing. -/
theorem empty_attendance_raises_instead_of_excluding :
    getMostRecentAttendance dbC4 contactC4 = none ∧
    getAttendanceInfo dbC4 contactC4 = .error PyErr.typeError ∧
    aggregatePnmData dbC4 [contactC4.contactKey] = .error PyErr.typeError :=
  ⟨rfl, rfl, rfl⟩

/-- C5: when survey aggregation succeeds, num_of_days_since_bid is the
count of the contact's attendance records with checkInDate strictly
after the createdAt of the most recent Pro survey if the contact has at
least one Pro survey, and the sentinel "No Pros" otherwise. -/
theorem days_since_bid_matches_spec (db : DB) (c : Contact) (agg : Aggregates)
    (h : aggregateSurveyResults db c = .ok agg) :
    ((∃ s ∈ findSurveys db c.surveyInfo, s.bidStatus = _PRO) →
      agg.num_of_days_since_bid = .num (spec_num_days_since_bid db c)) ∧
    ((∀ s ∈ findSurveys db c.surveyInfo, s.bidStatus ≠ _PRO) →
      agg.num_of_days_since_bid = .noPros) := by
  obtain ⟨st, hl, rfl⟩ := aggregateSurveyResults_ok db c agg h
  obtain ⟨h1, h2, h3, h4, h5, h6, h7⟩ := surveyLoop_ok_fields _ _ _ hl
  simp only [initLoopState] at h4 h7
  constructor
  · rintro ⟨s, hs, hsp⟩
    have hmem : s ∈ (findSurveys db c.surveyInfo).filter isPro :=
      List.mem_filter.mpr ⟨hs, by simp [isPro, hsp, _PRO]⟩
    have hpos : 0 < ((findSurveys db c.surveyInfo).filter isPro).length :=
      List.length_pos.mpr (List.ne_nil_of_mem hmem)
    have hcond : 0 < st.num_pro := by omega
    have hmrp : st.most_recent_pro =
        spec_most_recent_pro_createdAt (findSurveys db c.surveyInfo) := by omega
    simp only [assembleAggregates, if_pos hcond]
    rw [hmrp]
    unfold getNumOfAttendancesFromDate spec_num_days_since_bid
    rw [count_fold_eq]
    simp
  · intro hall
    have hnil : (findSurveys db c.surveyInfo).filter isPro = [] := by
      rw [List.filter_eq_nil_iff]
      intro s hs
      simpa [isPro, _PRO] using hall s hs
    have hz : st.num_pro = 0 := by rw [h4, hnil]; rfl
    simp only [assembleAggregates]
    rw [if_neg (by omega)]

/-- C5 witness: on the spec's worked example (one Pro survey created at
T0 = 100 and check-ins at T0 plus one day and T0 plus three days) the
aggregated num_of_days_since_bid equals the spec-side count, which is
2. -/
theorem days_since_bid_matches_spec_witness :
    aggW5.num_of_days_since_bid = .num (spec_num_days_since_bid dbW5 contactW5) ∧
    spec_num_days_since_bid dbW5 contactW5 = 2 :=
  ⟨(days_since_bid_matches_spec dbW5 contactW5 aggW5 (by rfl)).1
      ⟨surveyW5, by decide, by decide⟩,
    by decide⟩

/-- C6: the claim says a null fitRating is skipped and does not make
aggregation fail.  In the code, a null value is unequal to the string
"NoneType", so None.to_decimal() is evaluated and raises AttributeError,
aborting aggregation for that contact; only the literal string
"NoneType" takes the skip branch contributing 0. -/
theorem null_fit_rating_raises_attribute_error :
    aggregateSurveyResults dbC6 contactC6 = .error PyErr.attributeError ∧
    fitContribution FitRating.null = .error PyErr.attributeError ∧
    fitContribution FitRating.strNoneType = .ok 0 :=
  ⟨rfl, rfl, rfl⟩

/-- C7: the claim says a contact with zero surveys gets a NaN mean that
renders as the literal "nan" in the output row.  In the code the survey
aggregation does yield a NaN mean without error and str() would render
it as "nan", but the PNMData constructor raises TypeError on the
accompanying "No Pros" sentinel, so no output row is ever produced for
such a contact. -/
theorem zero_surveys_nan_mean_is_never_rendered :
    aggregateSurveyResults dbC7 contactC7 = .ok aggC7 ∧
    aggC7.mean_fit_rating = PyFloat.nan ∧
    pyFloatStr PyFloat.nan = "nan" ∧
    pnmC7.get_row_list[3]? = some "nan" ∧
    mkPNMData (buildDataDict contactC7.name ainfoC7 aggC7) = .error PyErr.typeError :=
  ⟨rfl, rfl, rfl, rfl, rfl⟩

/-- C8: the PNM list produced by a completed aggregation pass is sorted
non-decreasingly by check-in time, so adjacent output rows are in
non-decreasing check-in order. -/
theorem aggregated_pnms_sorted_by_check_in (db : DB) (ids : List String)
    (pnms : List PNMData) (h : aggregatePnmData db ids = .ok pnms) :
    List.Chain' (fun a b => a.check_in_time ≤ b.check_in_time) pnms := by
  unfold aggregatePnmData at h
  cases hl : pnmLoop db (findContacts db ids) [] with
  | error e => rw [hl] at h; cases h
  | ok l =>
    rw [hl] at h
    injection h with h
    subst h
    exact List.Pairwise.chain' (List.sorted_insertionSort pnmKeyLE l)

/-- C8 witness: the aggregation pass on the empty database completes and
its output list is a non-decreasing chain in check-in time. -/
theorem aggregated_pnms_sorted_by_check_in_witness :
    List.Chain' (fun a b => a.check_in_time ≤ b.check_in_time) ([] : List PNMData) :=
  aggregated_pnms_sorted_by_check_in dbEmpty [] [] rfl

/-- C9: when survey aggregation succeeds, the four bid-status counters
sum to at most the number of fetched surveys, with equality when every
fetched survey's bidStatus is one of the four enumerated values. -/
theorem bid_status_counts_bounded_by_surveys (db : DB) (c : Contact)
    (agg : Aggregates) (h : aggregateSurveyResults db c = .ok agg) :
    agg.num_greens + agg.num_reds + agg.num_pro + agg.num_con ≤
      (findSurveys db c.surveyInfo).length ∧
    ((∀ s ∈ findSurveys db c.surveyInfo, s.bidStatus = _GREEN ∨ s.bidStatus = _RED ∨
        s.bidStatus = _PRO ∨ s.bidStatus = _CON) →
      agg.num_greens + agg.num_reds + agg.num_pro + agg.num_con =
        (findSurveys db c.surveyInfo).length) := by
  obtain ⟨st, hl, rfl⟩ := aggregateSurveyResults_ok db c agg h
  obtain ⟨h1, h2, h3, h4, h5, h6, h7⟩ := surveyLoop_ok_fields _ _ _ hl
  simp only [initLoopState] at h2 h3 h4 h5
  obtain ⟨f1, f2⟩ := four_filter_lengths (findSurveys db c.surveyInfo)
  constructor
  · simp only [assembleAggregates]
    omega
  · intro hall
    have hf := f2 hall
    simp only [assembleAggregates]
    omega

/-- C9 witness: on a contact with one Green survey the counters sum to
the number of fetched surveys. -/
theorem bid_status_counts_bounded_by_surveys_witness :
    aggW9.num_greens + aggW9.num_reds + aggW9.num_pro + aggW9.num_con =
      (findSurveys dbW9 contactW9.surveyInfo).length :=
  (bid_status_counts_bounded_by_surveys dbW9 contactW9 aggW9 (by rfl)).2 (by decide)

/-- C10: when survey aggregation succeeds and at least one survey was
fetched, the mean fit rating is the accumulated fit-rating sum (skipped
ratings contributing 0) divided by the number of fetched surveys. -/
theorem mean_fit_rating_is_sum_over_count (db : DB) (c : Contact)
    (agg : Aggregates) (h : aggregateSurveyResults db c = .ok agg)
    (hne : findSurveys db c.surveyInfo ≠ []) :
    agg.mean_fit_rating =
      .val (spec_fit_sum (findSurveys db c.surveyInfo) /
        ((findSurveys db c.surveyInfo).length : Rat)) := by
  obtain ⟨st, hl, rfl⟩ := aggregateSurveyResults_ok db c agg h
  obtain ⟨h1, h2, h3, h4, h5, h6, h7⟩ := surveyLoop_ok_fields _ _ _ hl
  simp only [initLoopState] at h1 h6
  have hpos : 0 < st.num_surveys := by
    have := List.length_pos.mpr hne
    omega
  simp only [assembleAggregates, if_pos hpos]
  rw [h6, h1]
  norm_num

/-- C10 witness: on a contact with one survey rated 3 the mean is the
sum 3 divided by the count 1. -/
theorem mean_fit_rating_is_sum_over_count_witness :
    aggW9.mean_fit_rating =
      .val (spec_fit_sum (findSurveys dbW9 contactW9.surveyInfo) /
        ((findSurveys dbW9 contactW9.surveyInfo).length : Rat)) :=
  mean_fit_rating_is_sum_over_count dbW9 contactW9 aggW9 (by rfl) (by decide)
